import Mathlib

/-!
Verification of the room-presence and broadcast coordinator of
`travel_site` (`src/app.py`): the SocketIO handlers `on_join`, `on_leave`,
`on_disconnect`, `handle_send_message` and the shared in-memory state
`room_members` / `sid_map`.

The Python dicts are embedded as association lists, the Python sets as
lists without a duplication requirement (`set.add` only inserts a missing
element, `set.discard` removes it).  Each handler is a pure function from
the shared state to a new state together with the list of SocketIO events
it emits, in emission order.  Nickname resolution (session lookup of the
user's nickname, falling back to the client-supplied name) and the
authentication check (`"user_id" in session`) involve the external session
and database collaborators; they are passed in as the parameters `nick`
and `authed`.  Timestamps only appear inside event payload strings and are
dropped from the event model.
-/

namespace TravelSite

/-- A connection handle (SocketIO `request.sid`). -/
abbrev Sid := Nat

/-- A room name (Python `str`). -/
abbrev Room := String

/-- A `sid_map` value: the dict `{'nick': nickname, 'room': room}`. -/
structure Entry where
  nick : String
  room : Room
deriving DecidableEq, Repr

/-- The SocketIO events a handler can emit.
`authRequired` is `emit('auth_required', ...)` to the requesting
connection only; `forceDisconnect` is the server-side `disconnect()` call
that terminates the offending connection; `enteredNotice r n` /
`leftNotice r n` are the system `receive_message` broadcasts
(`'{n}님이 입장했습니다'` / `'{n}님이 퇴장했습니다'`) to room `r`;
`roomUsersUpdate` is the global `room_users_update` snapshot broadcast;
`receiveMessage r n t` is the chat-message broadcast to room `r`. -/
inductive Event where
  | authRequired : Event
  | forceDisconnect : Event
  | enteredNotice : Room → String → Event
  | leftNotice : Room → String → Event
  | roomUsersUpdate : Event
  | receiveMessage : Room → String → String → Event
deriving DecidableEq, Repr

/-- Python dict lookup `d.get(k)` on an association list. -/
def dlookup {α β : Type} [DecidableEq α] (k : α) : List (α × β) → Option β
  | [] => none
  | (a, b) :: t => if a = k then some b else dlookup k t

/-- Python dict assignment `d[k] = v`: replace the binding of `k`, or
append a fresh binding. -/
def dinsert {α β : Type} [DecidableEq α] (k : α) (v : β) : List (α × β) → List (α × β)
  | [] => [(k, v)]
  | (a, b) :: t => if a = k then (k, v) :: t else (a, b) :: dinsert k v t

/-- Python dict removal `d.pop(k, None)` (ignoring the returned value). -/
def dremove {α β : Type} [DecidableEq α] (k : α) : List (α × β) → List (α × β)
  | [] => []
  | (a, b) :: t => if a = k then t else (a, b) :: dremove k t

/-- Python `set.add`. -/
def sadd (s : Sid) (l : List Sid) : List Sid :=
  if s ∈ l then l else s :: l

/-- Python `set.discard`. -/
def sdiscard (s : Sid) (l : List Sid) : List Sid :=
  l.filter (fun x => x ≠ s)

/-- The association list represents a Python dict: keys are unique. -/
def nodupKeys {α β : Type} (l : List (α × β)) : Prop :=
  (l.map Prod.fst).Nodup

/-- `CHAT_ROOMS = ["한국", "일본", "베트남", "필리핀", "태국"]`. -/
def CHAT_ROOMS : List Room := ["한국", "일본", "베트남", "필리핀", "태국"]

/-- The shared mutable state: `room_members` (room → set of sids) and
`sid_map` (sid → `{'nick', 'room'}`). -/
structure ChatState where
  room_members : List (Room × List Sid)
  sid_map : List (Sid × Entry)
deriving DecidableEq, Repr

/-- The module-level initial state:
`room_members = {room: set() for room in CHAT_ROOMS}`; `sid_map = {}`. -/
def initState : ChatState :=
  { room_members := CHAT_ROOMS.map (fun r => (r, []))
    sid_map := [] }

/-- Membership test `sid in room_members.get(room, set())`. -/
def memberOf (sid : Sid) (room : Room) (st : ChatState) : Prop :=
  sid ∈ (dlookup room st.room_members).getD []

instance (sid : Sid) (room : Room) (st : ChatState) : Decidable (memberOf sid room st) := by
  unfold memberOf; infer_instance

/-- The prior-membership cleanup at the top of `on_join`:
`prev_info = sid_map.get(sid)`; `prev_room = prev_info.get('room')` when
present; `if prev_room and prev_room != room:` discard `sid` from
`room_members[prev_room]` when it is there, and `sid_map.pop(sid, None)`.
(`prev_room and ...` is Python truthiness: an empty room string skips the
branch.) -/
def join_prev_cleanup (sid : Sid) (room : Room) (st : ChatState) : ChatState :=
  match dlookup sid st.sid_map with
  | none => st
  | some info =>
      if info.room ≠ "" ∧ info.room ≠ room then
        { room_members :=
            if sid ∈ (dlookup info.room st.room_members).getD [] then
              dinsert info.room
                (sdiscard sid ((dlookup info.room st.room_members).getD []))
                st.room_members
            else st.room_members,
          sid_map := dremove sid st.sid_map }
      else st

/-- `on_join(data)` (src/app.py lines 374-403).  If the session has no
`user_id` (`authed = false`): emit `auth_required`, call `disconnect()`,
return — no state change.  Otherwise: prior-membership cleanup, then
`room_members.setdefault(room, set()).add(sid)`,
`sid_map[sid] = {'nick': nickname, 'room': room}`, and unconditionally
emit the entered system notice to `room` and the global
`room_users_update` snapshot. -/
def on_join (authed : Bool) (sid : Sid) (room : Room) (nick : String)
    (st : ChatState) : ChatState × List Event :=
  match authed with
  | false => (st, [Event.authRequired, Event.forceDisconnect])
  | true =>
      ({ room_members :=
           dinsert room
             (sadd sid ((dlookup room (join_prev_cleanup sid room st).room_members).getD []))
             (join_prev_cleanup sid room st).room_members,
         sid_map := dinsert sid ⟨nick, room⟩ (join_prev_cleanup sid room st).sid_map },
       [Event.enteredNotice room nick, Event.roomUsersUpdate])

/-- `on_leave(data)` (src/app.py lines 405-420).  Discard `sid` from
`room_members[room]` when present, then `sid_map.pop(sid, None)`
unconditionally, then unconditionally emit the left system notice to
`room` and the global `room_users_update` snapshot.  (There is no check
that `sid` was a member of `room`, and no auth check.) -/
def on_leave (sid : Sid) (room : Room) (nick : String)
    (st : ChatState) : ChatState × List Event :=
  ({ room_members :=
       if sid ∈ (dlookup room st.room_members).getD [] then
         dinsert room (sdiscard sid ((dlookup room st.room_members).getD []))
           st.room_members
       else st.room_members,
     sid_map := dremove sid st.sid_map },
   [Event.leftNotice room nick, Event.roomUsersUpdate])

/-- `on_disconnect(*args)` (src/app.py lines 422-431).
`info = sid_map.pop(sid, None)`; if an entry existed and
`room and sid in room_members.get(room, set())`, discard the sid from the
room and emit one `room_users_update`; otherwise emit nothing.  (The pop
happens first in the source, but it does not touch `room_members`, so the
membership test reads the same `room_members` either way.) -/
def on_disconnect (sid : Sid) (st : ChatState) : ChatState × List Event :=
  match dlookup sid st.sid_map with
  | none => (st, [])
  | some info =>
      if info.room ≠ "" ∧ sid ∈ (dlookup info.room st.room_members).getD [] then
        ({ room_members :=
             dinsert info.room
               (sdiscard sid ((dlookup info.room st.room_members).getD []))
               st.room_members,
           sid_map := dremove sid st.sid_map },
         [Event.roomUsersUpdate])
      else ({ st with sid_map := dremove sid st.sid_map }, [])

/-- Python `str.strip()` with no argument: remove leading and trailing
whitespace.  (`String.trim` from the library matches it on the ASCII
whitespace of interest, but is not kernel-reducible, hence this explicit
character-list definition.) -/
def pyStrip (s : String) : String :=
  ⟨((s.data.dropWhile Char.isWhitespace).reverse.dropWhile
      Char.isWhitespace).reverse⟩

/-- Outcome of `handle_send_message`: whether the `Message` row was
committed to the database, whether `logger.exception` recorded a
persistence failure, and the emitted events. -/
structure SendResult where
  persisted : Bool
  loggedFailure : Bool
  events : List Event
deriving DecidableEq, Repr

/-- `handle_send_message(data)` (src/app.py lines 433-457).  No session
`user_id`: emit `auth_required` to the sender and return.  Text empty
after `.strip()`: return silently.  Otherwise try to commit the message
row — on failure roll back and log — and in either case emit
`receive_message` to the room.  The handler never touches `room_members`
or `sid_map`; `persistOk` stands for the outcome of the database commit. -/
def handle_send_message (authed : Bool) (room : Room) (nick : String)
    (text : String) (persistOk : Bool) : SendResult :=
  match authed with
  | false =>
      { persisted := false, loggedFailure := false, events := [Event.authRequired] }
  | true =>
      if pyStrip text = "" then
        { persisted := false, loggedFailure := false, events := [] }
      else if persistOk then
        { persisted := true, loggedFailure := false
          events := [Event.receiveMessage room nick (pyStrip text)] }
      else
        { persisted := false, loggedFailure := true
          events := [Event.receiveMessage room nick (pyStrip text)] }

/-- One inbound event of the presence core, as dispatched by SocketIO:
`join`/`leave` carry the (defaulted) room and the resolved nickname, and
`join` carries whether the session was authenticated at that moment. -/
inductive Evt where
  | join : Bool → Sid → Room → String → Evt
  | leave : Sid → Room → String → Evt
  | disc : Sid → Evt
deriving DecidableEq, Repr

/-- The state transition of one inbound event (the emitted events
discarded). -/
def stepState (e : Evt) (st : ChatState) : ChatState :=
  match e with
  | .join a s r n => (on_join a s r n st).1
  | .leave s r n => (on_leave s r n st).1
  | .disc s => (on_disconnect s st).1

/-- The state after serving a finite sequence of inbound events from the
initial state. -/
def run (es : List Evt) : ChatState :=
  es.foldl (fun st e => stepState e st) initState

/-- A state is reachable when some finite event sequence produces it. -/
def Reachable (st : ChatState) : Prop :=
  ∃ es : List Evt, run es = st

/-! ### Association-list lemmas -/

theorem dlookup_dinsert_self {α β : Type} [DecidableEq α] (k : α) (v : β)
    (l : List (α × β)) : dlookup k (dinsert k v l) = some v := by
  induction l with
  | nil => simp [dinsert, dlookup]
  | cons p t ih =>
      obtain ⟨a, b⟩ := p
      by_cases h : a = k
      · simp [dinsert, dlookup, h]
      · simp [dinsert, dlookup, h, ih]

theorem dinsert_eq_of_dlookup {α β : Type} [DecidableEq α] {k : α} {v : β}
    {l : List (α × β)} (h : dlookup k l = some v) : dinsert k v l = l := by
  induction l with
  | nil => simp [dlookup] at h
  | cons p t ih =>
      obtain ⟨a, b⟩ := p
      by_cases ha : a = k
      · subst ha
        simp [dlookup] at h
        simp [dinsert, h]
      · simp [dlookup, ha] at h
        simp [dinsert, ha, ih h]

theorem dlookup_eq_none_of_not_mem {α β : Type} [DecidableEq α] {k : α}
    {l : List (α × β)} (h : k ∉ l.map Prod.fst) : dlookup k l = none := by
  induction l with
  | nil => rfl
  | cons p t ih =>
      obtain ⟨a, b⟩ := p
      have ha : ¬ a = k := fun hh => h (by simp [hh])
      have ht : k ∉ t.map Prod.fst := fun hh => h (by simp [hh])
      simp [dlookup, ha, ih ht]

theorem dlookup_dremove_self {α β : Type} [DecidableEq α] {k : α}
    {l : List (α × β)} (h : nodupKeys l) : dlookup k (dremove k l) = none := by
  induction l with
  | nil => rfl
  | cons p t ih =>
      obtain ⟨a, b⟩ := p
      simp [nodupKeys] at h
      by_cases ha : a = k
      · subst ha
        simpa [dremove] using dlookup_eq_none_of_not_mem (by simpa using h.1)
      · simpa [dremove, ha, dlookup] using ih (by simpa [nodupKeys] using h.2)

theorem dremove_sublist {α β : Type} [DecidableEq α] (k : α) (l : List (α × β)) :
    List.Sublist (dremove k l) l := by
  induction l with
  | nil => simp [dremove]
  | cons p t ih =>
      obtain ⟨a, b⟩ := p
      by_cases ha : a = k
      · rw [dremove, if_pos ha]; exact List.sublist_cons_self (a, b) t
      · rw [dremove, if_neg ha]; exact List.Sublist.cons₂ (a, b) ih

theorem nodupKeys_dremove {α β : Type} [DecidableEq α] {k : α}
    {l : List (α × β)} (h : nodupKeys l) : nodupKeys (dremove k l) :=
  List.Nodup.sublist (List.Sublist.map Prod.fst (dremove_sublist k l)) h

theorem mem_keys_dinsert {α β : Type} [DecidableEq α] {x k : α} {v : β}
    {l : List (α × β)} :
    x ∈ (dinsert k v l).map Prod.fst ↔ x = k ∨ x ∈ l.map Prod.fst := by
  induction l with
  | nil => simp [dinsert]
  | cons p t ih =>
      obtain ⟨a, b⟩ := p
      by_cases ha : a = k
      · subst ha; simp [dinsert]
      · simp [dinsert, ha, ih]; tauto

theorem nodupKeys_dinsert {α β : Type} [DecidableEq α] {k : α} {v : β}
    {l : List (α × β)} (h : nodupKeys l) : nodupKeys (dinsert k v l) := by
  induction l with
  | nil => simp [dinsert, nodupKeys]
  | cons p t ih =>
      obtain ⟨a, b⟩ := p
      rw [nodupKeys, List.map_cons, List.nodup_cons] at h
      by_cases ha : a = k
      · subst ha
        rw [dinsert, if_pos rfl, nodupKeys, List.map_cons, List.nodup_cons]
        exact h
      · have ht := ih h.2
        rw [dinsert, if_neg ha, nodupKeys, List.map_cons, List.nodup_cons]
        refine ⟨fun hx => ?_, ht⟩
        rcases mem_keys_dinsert.mp hx with h1 | h1
        · exact ha h1
        · exact h.1 h1

theorem mem_sadd_self (s : Sid) (l : List Sid) : s ∈ sadd s l := by
  unfold sadd
  split
  · assumption
  · exact List.mem_cons_self s l

/-! ### Reachability invariant: `sid_map` is a genuine dict -/

theorem nodupKeys_join_prev_cleanup (sid : Sid) (room : Room) (st : ChatState)
    (h : nodupKeys st.sid_map) :
    nodupKeys (join_prev_cleanup sid room st).sid_map := by
  unfold join_prev_cleanup
  split
  · exact h
  · split
    · exact nodupKeys_dremove h
    · exact h

theorem on_disconnect_sid_map (sid : Sid) (st : ChatState) :
    (dlookup sid st.sid_map = none ∧ (on_disconnect sid st).1 = st) ∨
    (on_disconnect sid st).1.sid_map = dremove sid st.sid_map := by
  unfold on_disconnect
  split
  · next hl => exact Or.inl ⟨hl, rfl⟩
  · split
    · exact Or.inr rfl
    · exact Or.inr rfl

theorem nodupKeys_sid_map_step (e : Evt) (st : ChatState)
    (h : nodupKeys st.sid_map) : nodupKeys (stepState e st).sid_map := by
  cases e with
  | join a s r n =>
      cases a with
      | false => simpa [stepState, on_join] using h
      | true =>
          simpa [stepState, on_join] using
            nodupKeys_dinsert (nodupKeys_join_prev_cleanup s r st h)
  | leave s r n => simpa [stepState, on_leave] using nodupKeys_dremove h
  | disc s =>
      rcases on_disconnect_sid_map s st with ⟨_, hh⟩ | hh
      · simpa [stepState, hh] using h
      · simpa [stepState, hh] using nodupKeys_dremove h

theorem nodupKeys_run_sid_map (es : List Evt) : nodupKeys (run es).sid_map := by
  suffices h : ∀ st : ChatState, nodupKeys st.sid_map →
      nodupKeys (es.foldl (fun st e => stepState e st) st).sid_map by
    exact h initState (by simp [initState, nodupKeys])
  induction es with
  | nil => exact fun st h => h
  | cons e t ih => exact fun st h => ih _ (nodupKeys_sid_map_step e st h)

theorem dlookup_on_disconnect_self (sid : Sid) (st : ChatState)
    (h : nodupKeys st.sid_map) :
    dlookup sid (on_disconnect sid st).1.sid_map = none := by
  rcases on_disconnect_sid_map sid st with ⟨hn, hh⟩ | hh
  · rw [hh]; exact hn
  · rw [hh]; exact dlookup_dremove_self h

theorem on_disconnect_of_none (sid : Sid) (st : ChatState)
    (h : dlookup sid st.sid_map = none) : on_disconnect sid st = (st, []) := by
  unfold on_disconnect
  rw [h]

/-! ### Claims -/

/-- Claim C1 (refuted by the code — evaluation at the failing input): after
an authenticated `join(1, "한국")` followed by a stale `leave(1, "일본")`,
connection 1 is still a member of "한국" although its `sid_map` entry has
been deleted, so `h ∈ room_members[r]` holds without a Registry entry
recording `currentRoom = r`; `on_leave` pops `sid_map` unconditionally
instead of updating both sides together. -/
theorem C1_registry_membership_bug :
    Reachable (run [Evt.join true 1 "한국" "A", Evt.leave 1 "일본" "A"]) ∧
    memberOf 1 "한국" (run [Evt.join true 1 "한국" "A", Evt.leave 1 "일본" "A"]) ∧
    dlookup 1 (run [Evt.join true 1 "한국" "A", Evt.leave 1 "일본" "A"]).sid_map
      = none :=
  ⟨⟨[Evt.join true 1 "한국" "A", Evt.leave 1 "일본" "A"], rfl⟩, by decide, by decide⟩

/-- Claim C2 (refuted by the code — evaluation at the failing input): after
`join(1, "한국")`, a stale `leave(1, "일본")` and `join(1, "베트남")`,
connection 1 is simultaneously a member of the distinct rooms "한국" and
"베트남": the stale leave erased the `sid_map` entry, so the later join
found no prior room to clean up. -/
theorem C2_disjointness_bug :
    ("한국" : Room) ≠ "베트남" ∧
    memberOf 1 "한국" (run [Evt.join true 1 "한국" "A", Evt.leave 1 "일본" "A",
      Evt.join true 1 "베트남" "A"]) ∧
    memberOf 1 "베트남" (run [Evt.join true 1 "한국" "A", Evt.leave 1 "일본" "A",
      Evt.join true 1 "베트남" "A"]) :=
  ⟨by decide, by decide, by decide⟩

/-- Claim C3 (refuted by the code — evaluation at the failing input): with
connection 1 a member of "한국" only, `leave(1, "일본")` is not a no-op:
it deletes the `sid_map` entry (changing the state) and still emits the
left system notice and the global snapshot broadcast, although 1 was never
a member of "일본". -/
theorem C3_leave_not_noop_bug :
    ¬ memberOf 1 "일본" (run [Evt.join true 1 "한국" "A"]) ∧
    (on_leave 1 "일본" "A" (run [Evt.join true 1 "한국" "A"])).1
      ≠ run [Evt.join true 1 "한국" "A"] ∧
    (on_leave 1 "일본" "A" (run [Evt.join true 1 "한국" "A"])).2
      = [Event.leftNotice "일본" "A", Event.roomUsersUpdate] := by
  decide

/-- Claim C4 (refuted by the code — evaluation at the failing input): from
the reachable state after `join(1, "한국")`, `leave(1, "일본")`,
`join(1, "베트남")`, connection 1 is a member of "한국"; joining "태국"
then leaves it a member of both "한국" and "태국" rather than exactly
the requested room. -/
theorem C4_switch_atomicity_bug :
    memberOf 1 "한국" (run [Evt.join true 1 "한국" "A", Evt.leave 1 "일본" "A",
      Evt.join true 1 "베트남" "A"]) ∧
    memberOf 1 "한국" (run [Evt.join true 1 "한국" "A", Evt.leave 1 "일본" "A",
      Evt.join true 1 "베트남" "A", Evt.join true 1 "태국" "A"]) ∧
    memberOf 1 "태국" (run [Evt.join true 1 "한국" "A", Evt.leave 1 "일본" "A",
      Evt.join true 1 "베트남" "A", Evt.join true 1 "태국" "A"]) ∧
    ("한국" : Room) ≠ "태국" := by
  decide

/-- Claim C5 (refuted by the code — evaluation at the failing input): after
`join(1, "한국")`, `leave(1, "일본")`, `join(1, "베트남")` and then
`disconnect(1)`, the handle 1 still appears in `room_members["한국"]`
even though its `sid_map` entry is gone: disconnect only removes the sid
from the single room the Registry recorded, so a stale membership
survives the end of the connection's lifetime. -/
theorem C5_disconnect_leak_bug :
    memberOf 1 "한국" (run [Evt.join true 1 "한국" "A", Evt.leave 1 "일본" "A",
      Evt.join true 1 "베트남" "A", Evt.disc 1]) ∧
    dlookup 1 (run [Evt.join true 1 "한국" "A", Evt.leave 1 "일본" "A",
      Evt.join true 1 "베트남" "A", Evt.disc 1]).sid_map = none := by
  decide

/-- Claim C6: disconnect is idempotent.  From any reachable state, the
second of two disconnects for the same handle produces exactly the state
left by the first call and emits no events, and a disconnect for a handle
with no `sid_map` entry (in particular a never-registered one) is a no-op
that emits nothing. -/
theorem C6_disconnect_idempotent (st : ChatState) (h : Reachable st) (sid : Sid) :
    on_disconnect sid (on_disconnect sid st).1 = ((on_disconnect sid st).1, []) ∧
    (dlookup sid st.sid_map = none → on_disconnect sid st = (st, [])) := by
  obtain ⟨es, rfl⟩ := h
  refine ⟨?_, fun h0 => on_disconnect_of_none sid _ h0⟩
  exact on_disconnect_of_none sid _
    (dlookup_on_disconnect_self sid (run es) (nodupKeys_run_sid_map es))

/-- Claim C6 witness: the idempotence theorem applied at the concrete
reachable state after `join(1, "한국")`, for handle 2. -/
theorem C6_disconnect_idempotent_witness :
    on_disconnect 2 (on_disconnect 2 (run [Evt.join true 1 "한국" "A"])).1
      = ((on_disconnect 2 (run [Evt.join true 1 "한국" "A"])).1, []) ∧
    (dlookup 2 (run [Evt.join true 1 "한국" "A"]).sid_map = none →
      on_disconnect 2 (run [Evt.join true 1 "한국" "A"])
        = (run [Evt.join true 1 "한국" "A"], [])) :=
  C6_disconnect_idempotent (run [Evt.join true 1 "한국" "A"])
    ⟨[Evt.join true 1 "한국" "A"], rfl⟩ 2

/-- Claim C7 (amended): a duplicate join — the connection already a member
of the requested room, with a `sid_map` entry recording that room and the
same resolved nickname — leaves the state exactly unchanged, but emits
BOTH the system notice ('entered') to the room and the global room-state
snapshot: the code emits the notice unconditionally, so only the
no-state-change and snapshot parts of the original claim hold. -/
theorem C7_duplicate_join_noop (st : ChatState) (sid : Sid) (room : Room)
    (nick : String) (hm : memberOf sid room st)
    (he : dlookup sid st.sid_map = some ⟨nick, room⟩) :
    on_join true sid room nick st
      = (st, [Event.enteredNotice room nick, Event.roomUsersUpdate]) := by
  have hcl : join_prev_cleanup sid room st = st := by
    unfold join_prev_cleanup
    split
    · rfl
    · next info hinfo =>
        have hie : (⟨nick, room⟩ : Entry) = info :=
          Option.some.inj (he.symm.trans hinfo)
        subst hie
        rw [if_neg (by simp)]
  obtain ⟨l, hr, hsl⟩ : ∃ l, dlookup room st.room_members = some l ∧ sid ∈ l := by
    unfold memberOf at hm
    cases hrr : dlookup room st.room_members with
    | none => rw [hrr] at hm; simp at hm
    | some l => exact ⟨l, rfl, by rw [hrr] at hm; simpa using hm⟩
  have hsadd : sadd sid ((dlookup room st.room_members).getD []) = l := by
    rw [hr]; simp [sadd, hsl]
  simp only [on_join]
  rw [hcl, hsadd, dinsert_eq_of_dlookup hr, dinsert_eq_of_dlookup he]

/-- Claim C7 counterexample: connection 1 is already a member of "한국",
yet a second `join(1, "한국")` still emits the 'entered' system notice,
refuting the part of the claim that says the duplicate join does not emit
it. -/
theorem C7_duplicate_join_cex :
    memberOf 1 "한국" (run [Evt.join true 1 "한국" "A"]) ∧
    Event.enteredNotice "한국" "A"
      ∈ (on_join true 1 "한국" "A" (run [Evt.join true 1 "한국" "A"])).2 := by
  decide

/-- Claim C7 witness: the amended duplicate-join theorem applied at the
concrete state after `join(1, "한국")`. -/
theorem C7_duplicate_join_noop_witness :
    memberOf 1 "한국" (run [Evt.join true 1 "한국" "A"]) ∧
    dlookup 1 (run [Evt.join true 1 "한국" "A"]).sid_map = some ⟨"A", "한국"⟩ ∧
    on_join true 1 "한국" "A" (run [Evt.join true 1 "한국" "A"])
      = (run [Evt.join true 1 "한국" "A"],
         [Event.enteredNotice "한국" "A", Event.roomUsersUpdate]) :=
  ⟨by decide, by decide,
   C7_duplicate_join_noop _ 1 "한국" "A" (by decide) (by decide)⟩

/-- Claim C8 (amended): an authenticated join whose room name lies outside
`CHAT_ROOMS` is NOT rejected: `room_members.setdefault(room, set())`
creates a membership entry for the unconfigured name on demand and the
connection is added to it, so the key set of `room_members` can grow
beyond the configured rooms. -/
theorem C8_unconfigured_room_join (st : ChatState) (sid : Sid) (room : Room)
    (nick : String) (_h : room ∉ CHAT_ROOMS) :
    memberOf sid room (on_join true sid room nick st).1 := by
  simp only [on_join]
  unfold memberOf
  rw [dlookup_dinsert_self]
  simpa using mem_sadd_self sid _

/-- Claim C8 counterexample: the room name "방" is outside `CHAT_ROOMS`,
yet joining it from the initial state creates a fresh `room_members`
entry `("방", {1})` — the join is not rejected and the room set grows
beyond the configured one. -/
theorem C8_unconfigured_room_cex :
    "방" ∉ CHAT_ROOMS ∧
    dlookup "방" (on_join true 1 "방" "A" initState).1.room_members = some [1] := by
  decide

/-- Claim C8 witness: the amended theorem applied to the unconfigured room
"방" from the initial state. -/
theorem C8_unconfigured_room_join_witness :
    "방" ∉ CHAT_ROOMS ∧ memberOf 1 "방" (on_join true 1 "방" "A" initState).1 :=
  ⟨by decide, C8_unconfigured_room_join initState 1 "방" "A" (by decide)⟩

/-- Claim C9: with no authenticated identity, a join emits `auth_required`
(delivered to the offending connection only) followed by the forced
disconnect, changing no state; a send emits `auth_required` to the sender
only, and the message is neither persisted nor broadcast to the room. -/
theorem C9_unauthorized_handling (sid : Sid) (room : Room) (nick : String)
    (st : ChatState) (text : String) (persistOk : Bool) :
    on_join false sid room nick st
      = (st, [Event.authRequired, Event.forceDisconnect]) ∧
    handle_send_message false room nick text persistOk
      = { persisted := false, loggedFailure := false
          events := [Event.authRequired] } :=
  ⟨rfl, rfl⟩

/-- Claim C10: for an authenticated send whose text is nonempty after
stripping, a persistence failure is only logged locally and the
`receive_message` broadcast to the room still happens (no error event is
emitted to anyone); text that strips to empty is silently dropped: nothing
persisted, nothing logged, nothing broadcast. -/
theorem C10_send_error_handling (room : Room) (nick : String) (text : String)
    (persistOk : Bool) :
    (pyStrip text ≠ "" →
      handle_send_message true room nick text false
        = { persisted := false, loggedFailure := true
            events := [Event.receiveMessage room nick (pyStrip text)] }) ∧
    (pyStrip text = "" →
      handle_send_message true room nick text persistOk
        = { persisted := false, loggedFailure := false, events := [] }) := by
  constructor
  · intro h
    simp [handle_send_message, h]
  · intro h
    simp [handle_send_message, h]

/-- Claim C10 witness: the send theorem applied at the concrete texts
" hi " (nonempty after stripping, persistence failing) and "  " (empty
after stripping). -/
theorem C10_send_error_handling_witness :
    pyStrip " hi " ≠ "" ∧
    handle_send_message true "한국" "A" " hi " false
      = { persisted := false, loggedFailure := true
          events := [Event.receiveMessage "한국" "A" (pyStrip " hi ")] } ∧
    pyStrip "  " = "" ∧
    handle_send_message true "한국" "A" "  " true
      = { persisted := false, loggedFailure := false, events := [] } :=
  ⟨by decide, (C10_send_error_handling "한국" "A" " hi " false).1 (by decide),
   by decide, (C10_send_error_handling "한국" "A" "  " true).2 (by decide)⟩

end TravelSite
